import Mathlib

/-!
Verification of the LLM_WebSearch repository (files `LLM_WebSearch.py`,
`LLM_WebSearch_Updated.py`, `MCP_test.py`) against its natural-language
specification.

The repository is a sequence of external API calls (web search, HTTP
scraping, language-model completion) glued together by control flow, JSON
parsing and error containment.  The shallow embedding below keeps the
control flow, data shapes and error handling of the Python source exactly,
and abstracts each external call as a parameter:

* every `try`-block whose body is a completion call followed by JSON
  parsing is modelled by a value of type `Except String α` — `.ok` is the
  successfully parsed payload, `.error e` is any exception raised inside
  the block (network failure, malformed JSON, missing dictionary keys);
* HTTP POSTs issued by the MCP tool loop are reified as a list of `Post`
  records so that "exactly one POST to this endpoint" is a provable
  statement;
* Python's stable `list.sort(key=…, reverse=True)` is modelled by the
  stable descending insertion sort `sortDescBy`, and its stability is
  stated via the filter characterisation (sorting preserves the relative
  order of elements with equal keys).

Python strings are sequences of code points; Lean's `String` (a packed
`List Char`) matches, with `String.length` and `String.take` agreeing with
Python's `len` and slicing.
-/

namespace MCPTest

/-- `MCPTool` from `MCP_test.py`: a named tool backed by an HTTP endpoint. -/
structure MCPTool where
  name : String
  description : String
  server_url : String
deriving Repr, DecidableEq

/-- One HTTP POST issued by `MCPTool.execute`: a JSON-RPC-shaped request
`{method, params, jsonrpc: "2.0", id: 1}` sent to the tool's
`server_url`.  The `params` payload is kept abstract as a string. -/
structure Post where
  url : String
  method : String
  params : String
deriving Repr, DecidableEq

/-- A tool call requested by a completion response: `tool_call["id"]`,
`tool_call["name"]`, and the `"method"`/`"params"` entries of
`tool_call["parameters"]` (absent keys modelled by `none`, matching the
`.get(key, default)` accesses in `MCPTool.execute`'s call site). -/
structure ToolCall where
  id : String
  name : String
  method : Option String
  params : Option String
deriving Repr, DecidableEq

/-- One response of the completion service: its text `content` and the
list of requested tool calls `tool_use` (empty when the model requests no
tools, which is falsy in the Python `while message.tool_use` test). -/
structure Message where
  content : String
  tool_use : List ToolCall
deriving Repr, DecidableEq

/-- The global tool registry `tools` of `MCP_test.py`, first entry. -/
def file_system_tool : MCPTool :=
  { name := "file_system"
    description := "Access files on the local system"
    server_url := "http://localhost:8080/files" }

/-- The global tool registry `tools` of `MCP_test.py`, second entry. -/
def database_tool : MCPTool :=
  { name := "database"
    description := "Query a SQL database"
    server_url := "http://localhost:8081/query" }

/-- The process-wide registry `tools` configured at module scope in
`MCP_test.py`. -/
def tools : List MCPTool := [file_system_tool, database_tool]

/-- `MCPTool.execute` as the POST it issues: the request goes to the
tool's `server_url` and carries `parameters.get("method", "")` and
`parameters.get("params", {})` (the empty-dict default abstracted as the
empty string). -/
def execTool (t : MCPTool) (tc : ToolCall) : Post :=
  { url := t.server_url
    method := tc.method.getD ""
    params := tc.params.getD "" }

/-- The body of the `for tool_call in tool_calls` loop inside
`call_claude_with_tools`.  Each requested call is resolved with
`next(t for t in tools if t.name == tool_call["name"])` — against the
GLOBAL registry, passed here as `registry`.  A successful lookup issues
the tool's POST; a failed lookup raises `StopIteration`, aborting the
loop, so later calls issue no POSTs.  Returns the posts issued in order
and `some name` when the unguarded lookup raised on `name`. -/
def processToolCalls (registry : List MCPTool) :
    List ToolCall → List Post × Option String
  | [] => ([], none)
  | tc :: rest =>
    match registry.find? (fun t => t.name == tc.name) with
    | none => ([], some tc.name)
    | some t =>
      let r := processToolCalls registry rest
      (execTool t tc :: r.1, r.2)

/-- Outcome of `call_claude_with_tools`:
* `returned content posts calls` — the `while` loop exited normally;
  `content` is the final response's content, `posts` every HTTP POST
  issued, `calls` the number of completion requests made;
* `uncaughtLookupError name posts calls` — the unguarded
  `next(t for t in tools if …)` raised `StopIteration` on the
  unregistered tool `name` and the exception escaped the function (the
  Python code has no handler for it);
* `fuelExhausted posts calls` — the artificial recursion bound was hit
  (the Python loop has no iteration cap; every terminating run is
  reproduced with enough fuel). -/
inductive LoopResult where
  | returned (content : String) (posts : List Post) (calls : Nat)
  | uncaughtLookupError (toolName : String) (posts : List Post) (calls : Nat)
  | fuelExhausted (posts : List Post) (calls : Nat)
deriving Repr, DecidableEq

/-- The `while message.tool_use:` loop of `call_claude_with_tools`.
`service n` is the completion service's response to the `(n+1)`-th
`client.messages.create` call (the service is abstracted as a function of
the call index; the growing message list only influences the service's
behaviour, which that function already encodes).  `msg` is the latest
response, `calls` the number of completion calls made so far, `posts` the
POSTs issued so far. -/
def toolLoop (registry : List MCPTool) (service : Nat → Message)
    (fuel : Nat) (msg : Message) (calls : Nat) (posts : List Post) :
    LoopResult :=
  if msg.tool_use.isEmpty then
    .returned msg.content posts calls
  else
    match fuel with
    | 0 => .fuelExhausted posts calls
    | fuel' + 1 =>
      let r := processToolCalls registry msg.tool_use
      match r.2 with
      | some nm => .uncaughtLookupError nm (posts ++ r.1) calls
      | none => toolLoop registry service fuel' (service calls) (calls + 1) (posts ++ r.1)

/-- `call_claude_with_tools(prompt, tools_to_use)` from `MCP_test.py`.
`manifest` is the `tools_to_use` argument: it is only used to build the
`tool_configs` advertised to the completion service (whose behaviour the
abstract `service` function already encodes), and in particular it is NOT
consulted when resolving a requested tool name — the loop body looks
tools up in the global `registry` instead.  The first completion call is
made before the loop, so the loop starts at `service 0` with one call
made. -/
def call_claude_with_tools (registry : List MCPTool)
    (manifest : List MCPTool) (service : Nat → Message) (fuel : Nat) :
    LoopResult :=
  toolLoop registry service fuel (service 0) 1 []

end MCPTest

namespace Pipeline

/-- A web search result as formatted by `search_web`:
`{title, url, snippet}`. -/
structure SearchResult where
  title : String
  url : String
  snippet : String
deriving Repr, DecidableEq

/-- A ranked result of `rank_search_results`: a copy of an input
`SearchResult` extended with `relevance_score` and `explanation`. -/
structure RankedResult where
  title : String
  url : String
  snippet : String
  relevance_score : Int
  explanation : String
deriving Repr, DecidableEq

/-- One entry of the `rankings` array parsed from the ranking completion
response: `{index (0-based), score, explanation}`.  The model may emit an
arbitrary integer index, including an out-of-bounds one. -/
structure RankEntry where
  index : Int
  score : Int
  explanation : String
deriving Repr, DecidableEq

/-- One parsed follow-up question: `{question, rationale, priority}`. -/
structure FollowUp where
  question : String
  rationale : String
  priority : Int
deriving Repr, DecidableEq

/-- The five-dimension score record of the Answer Critic's `evaluation`
object. -/
structure Evaluation where
  accuracy : Int
  completeness : Int
  clarity : Int
  conciseness : Int
  evidence : Int
deriving Repr, DecidableEq

/-- The full parsed critic response: `{evaluation, issues,
refined_answer}`. -/
structure EvalResult where
  evaluation : Evaluation
  issues : List String
  refined_answer : String
deriving Repr, DecidableEq

/-- Stable descending insertion: `x` is placed before the first element
whose key does not exceed `key x`, so among equal keys `x` ends up first.
This is the insertion step of the model of Python's stable
`list.sort(key=…, reverse=True)`. -/
def insertDescBy (key : α → Int) (x : α) : List α → List α
  | [] => [x]
  | y :: ys => if key x < key y then y :: insertDescBy key x ys else x :: y :: ys

/-- Model of Python's stable `list.sort(key=…, reverse=True)`: sort
descending by `key`, elements with equal keys keeping their original
relative order. -/
def sortDescBy (key : α → Int) : List α → List α
  | [] => []
  | x :: xs => insertDescBy key x (sortDescBy key xs)

/-- The `ranked_results` list built by the `for rank in rankings` loop of
`rank_search_results` before sorting: each entry whose `index` satisfies
`0 <= idx < len(results)` contributes a copy of `results[idx]` extended
with the entry's score and explanation; entries with any other index are
silently dropped.  Order is the order of the ranking response. -/
def rankedPre (results : List SearchResult) (rankings : List RankEntry) :
    List RankedResult :=
  rankings.filterMap fun rk =>
    if (0 : Int) ≤ rk.index ∧ rk.index < (results.length : Int) then
      match results.get? rk.index.toNat with
      | some r => some { title := r.title, url := r.url, snippet := r.snippet,
                         relevance_score := rk.score, explanation := rk.explanation }
      | none => none
    else none

/-- `rank_search_results(results, query)` (identical in both pipeline
files).  `outcome` abstracts the completion call plus
`json.loads(content)["rankings"]`: `.ok rankings` is the successfully
parsed array, `.error e` any exception in the `try` block.  Empty input
returns empty before any model call; on success the valid entries are
sorted stably descending by score; on failure every input result is
returned in original order with score 5 and explanation
`"Ranking failed"`. -/
def rank_search_results (results : List SearchResult)
    (outcome : Except String (List RankEntry)) : List RankedResult :=
  if results.isEmpty then []
  else
    match outcome with
    | .ok rankings =>
        sortDescBy (fun r => r.relevance_score) (rankedPre results rankings)
    | .error _ =>
        results.map fun r =>
          { title := r.title, url := r.url, snippet := r.snippet,
            relevance_score := 5, explanation := "Ranking failed" }

/-- The truncation marker appended by `scrape_webpage`. -/
def truncationMarker : String := "...[content truncated]"

/-- The tail of `scrape_webpage`'s `try` block: after fetching and
cleaning, `if len(text) > 15000: text = text[:15000] + "...[content
truncated]"`. -/
def truncateContent (text : String) : String :=
  if text.length > 15000 then text.take 15000 ++ truncationMarker else text

/-- `scrape_webpage(url)` (identical in both pipeline files).  `fetched`
abstracts the HTTP GET, `raise_for_status`, BeautifulSoup extraction and
whitespace cleanup: `.ok text` is the cleaned text, `.error e` any
exception in the `try` block, which yields the placeholder string instead
of raising. -/
def scrape_webpage (url : String) (fetched : Except String String) : String :=
  match fetched with
  | .ok text => truncateContent text
  | .error e => "Failed to scrape content from " ++ url ++ ": " ++ e

/-- The `for i, result in enumerate(top_results)` loop of
`get_context_from_results`: one labelled section per result whose scraped
content is non-empty (`if content:`), the enumeration index advancing on
every iteration.  `fetch` gives each URL's fetch-and-clean outcome. -/
def contextSections (fetch : String → Except String String) :
    Nat → List RankedResult → List String
  | _, [] => []
  | i, r :: rest =>
    let content := scrape_webpage r.url (fetch r.url)
    let restSections := contextSections fetch (i + 1) rest
    if content = "" then restSections
    else ("Source " ++ toString (i + 1) ++ ": " ++ r.title ++ " (" ++ r.url
          ++ ")\n\n" ++ content ++ "\n\n") :: restSections

/-- `get_context_from_results(ranked_results, max_results)`: scrape the
top `max_results` results and join their labelled sections with a
newline. -/
def get_context_from_results (fetch : String → Except String String)
    (ranked : List RankedResult) (max_results : Nat) : String :=
  String.intercalate "\n" (contextSections fetch 0 (ranked.take max_results))

end Pipeline

namespace Pipeline

/-- `decide_if_search_needed(query)` from `LLM_WebSearch_Updated.py`.
`outcome` abstracts the completion call, the brace-substring extraction
and `json.loads` plus the `decision["search_needed"]` /
`decision["reasoning"]` key accesses: `.ok (b, r)` is a successfully
parsed decision, `.error e` any exception in the `try` block, which the
`except` clause turns into the fail-open default. -/
def decide_if_search_needed (outcome : Except String (Bool × String)) :
    Bool × String :=
  match outcome with
  | .ok d => d
  | .error _ => (true, "Error in decision process, defaulting to search")

/-- `search_web(query, num_results)`: the `try` block's formatted result
list on success, the empty list on any exception. -/
def search_web (outcome : Except String (List SearchResult)) :
    List SearchResult :=
  match outcome with
  | .ok rs => rs
  | .error _ => []

/-- `answer_with_context(query, context)`: the completion text on
success, the apology string embedding the error text on any exception. -/
def answer_with_context (outcome : Except String String) : String :=
  match outcome with
  | .ok a => a
  | .error e => "Sorry, I encountered an error while generating your answer: " ++ e

/-- `evaluate_and_refine_answer(query, answer, context)` from
`LLM_WebSearch_Updated.py`.  `outcome` abstracts the completion call
(whose prompt embeds the query, the draft answer and the first 3000
characters of the context) plus `json.loads`: on any exception the
`except` clause returns neutral scores of 5, the single issue
`"Error in evaluation process"`, and the original draft answer as
`refined_answer`. -/
def evaluate_and_refine_answer (answer : String)
    (outcome : Except String EvalResult) : EvalResult :=
  match outcome with
  | .ok e => e
  | .error _ =>
    { evaluation := { accuracy := 5, completeness := 5, clarity := 5,
                      conciseness := 5, evidence := 5 }
      issues := ["Error in evaluation process"]
      refined_answer := answer }

/-- `generate_follow_up_questions(query, answer)` from
`LLM_WebSearch_Updated.py`: on success the parsed `follow_up_questions`
array sorted stably descending by `priority`, on any exception the empty
list. -/
def generate_follow_up_questions (outcome : Except String (List FollowUp)) :
    List FollowUp :=
  match outcome with
  | .ok fs => sortDescBy (fun f => f.priority) fs
  | .error _ => []

/-- The outcomes of every external interaction one `process_query` run
can perform.  Each completion-plus-parse `try` block is a single
`Except`; `fetchOutcome` gives the fetch-and-clean outcome per URL (the
pipeline scrapes several URLs in one run). -/
structure PipelineEnv where
  decideOutcome : Except String (Bool × String)
  searchOutcome : Except String (List SearchResult)
  rankOutcome : Except String (List RankEntry)
  fetchOutcome : String → Except String String
  answerOutcome : Except String String
  evalOutcome : Except String EvalResult
  directOutcome : Except String String
  followUpOutcome : Except String (List FollowUp)

/-- The `result` dictionary assembled by `process_query` in
`LLM_WebSearch_Updated.py`.  Keys present from initialisation are plain
fields (`evaluation` starts as the empty dict `{}`, modelled as `none`);
keys only added on some paths (`initial_answer`, `issues`, `context`) are
`Option`s with `none` meaning the key is absent. -/
structure PipelineResult where
  original_query : String
  search_performed : Bool
  answer : String
  follow_up_questions : List FollowUp
  evaluation : Option Evaluation
  refined_answer : String
  reasoning : String
  search_decision_reasoning : String
  initial_answer : Option String
  issues : Option (List String)
  context : Option String
deriving Repr, DecidableEq

/-- The final step shared by the two non-early-return paths of
`process_query`: `result["follow_up_questions"] =
generate_follow_up_questions(query, result["answer"])` (the query and the
answer only shape the prompt, which `env.followUpOutcome` abstracts). -/
def addFollowUps (env : PipelineEnv) (r : PipelineResult) : PipelineResult :=
  { r with follow_up_questions := generate_follow_up_questions env.followUpOutcome }

/-- `process_query(query, num_search_results, max_context_results)` from
`LLM_WebSearch_Updated.py`.  Mirrors the source line by line: initialise
`result`; run the classifier; on the search path set `search_performed`,
search, and — if the results are empty — return early with the fixed
no-results answer (skipping ranking, critique AND follow-up generation);
otherwise rank, build context, synthesise, critique, and take the
critic's `refined_answer` as the answer; on the no-search path answer
directly from the model, recording `initial_answer` only on success;
finally (except on the early return) generate follow-up questions. -/
def process_query (env : PipelineEnv) (query : String)
    (max_context_results : Nat) : PipelineResult :=
  let base : PipelineResult :=
    { original_query := query
      search_performed := false
      answer := ""
      follow_up_questions := []
      evaluation := none
      refined_answer := ""
      reasoning := ""
      search_decision_reasoning := ""
      initial_answer := none
      issues := none
      context := none }
  let decision := decide_if_search_needed env.decideOutcome
  let r1 := { base with search_decision_reasoning := decision.2 }
  if decision.1 then
    let r2 := { r1 with search_performed := true }
    let search_results := search_web env.searchOutcome
    if search_results.isEmpty then
      { r2 with answer := "I couldn't find any relevant information on the web for your query." }
    else
      let ranked := rank_search_results search_results env.rankOutcome
      let context := get_context_from_results env.fetchOutcome ranked max_context_results
      let initial := answer_with_context env.answerOutcome
      let ev := evaluate_and_refine_answer initial env.evalOutcome
      let r3 := { r2 with
        initial_answer := some initial
        evaluation := some ev.evaluation
        issues := some ev.issues
        refined_answer := ev.refined_answer
        answer := ev.refined_answer
        context := some context }
      addFollowUps env r3
  else
    let r2 :=
      match env.directOutcome with
      | .ok a => { r1 with answer := a, initial_answer := some a }
      | .error e =>
        { r1 with answer := "Sorry, I encountered an error while generating your answer: " ++ e }
    addFollowUps env r2

end Pipeline

namespace MCPTest

/-- A concrete tool call naming the registered `file_system` tool. -/
def fsCall : ToolCall :=
  { id := "toolu_01", name := "file_system",
    method := some "read_file", params := some "quarterly_report.txt" }

/-- A concrete completion service that requests `fsCall` on its first
response and no tools afterwards. -/
def fsService : Nat → Message := fun n =>
  if n = 0 then { content := "Reading the file.", tool_use := [fsCall] }
  else { content := "Here is the summary.", tool_use := [] }

/-- A concrete completion service whose first response requests the
unregistered tool name `"web_search"`. -/
def unknownToolService : Nat → Message := fun n =>
  if n = 0 then
    { content := "Searching."
      tool_use := [{ id := "toolu_02", name := "web_search",
                     method := some "search", params := some "llm news" }] }
  else { content := "done", tool_use := [] }

/-- A concrete completion service whose first response requests the
`database` tool (registered globally, absent from the `[file_system_tool]`
manifest). -/
def dbService : Nat → Message := fun n =>
  if n = 0 then
    { content := "Querying the database."
      tool_use := [{ id := "toolu_03", name := "database",
                     method := some "run_query", params := some "SELECT 1" }] }
  else { content := "The query returned 1.", tool_use := [] }

end MCPTest

namespace Pipeline

/-- A concrete follow-up question used to exhibit the Follow-up
Generator's output on the empty-search-results path. -/
def fuExample : FollowUp :=
  { question := "What sources cover this topic?"
    rationale := "The pipeline found nothing; the user may want leads."
    priority := 3 }

/-- Environment for the empty-search-results path: the classifier asks
for a search, the search returns no results, and the Follow-up Generator
would succeed with one question. -/
def envEmptySearch : PipelineEnv :=
  { decideOutcome := .ok (true, "asks about current events")
    searchOutcome := .ok []
    rankOutcome := .ok []
    fetchOutcome := fun _ => .ok ""
    answerOutcome := .ok ""
    evalOutcome := .ok { evaluation := { accuracy := 9, completeness := 9, clarity := 9,
                                         conciseness := 9, evidence := 9 },
                         issues := [], refined_answer := "refined" }
    directOutcome := .ok "direct"
    followUpOutcome := .ok [fuExample] }

/-- A second empty-search-results environment, together with a
no-search environment whose direct completion fails, used against the
`answer`/`refined_answer`/`initial_answer` equalities. -/
def envEmptySearch2 : PipelineEnv :=
  { decideOutcome := .ok (true, "needs fresh data")
    searchOutcome := .ok []
    rankOutcome := .ok []
    fetchOutcome := fun _ => .ok ""
    answerOutcome := .ok ""
    evalOutcome := .ok { evaluation := { accuracy := 9, completeness := 9, clarity := 9,
                                         conciseness := 9, evidence := 9 },
                         issues := [], refined_answer := "refined" }
    directOutcome := .ok "direct"
    followUpOutcome := .ok [] }

/-- No-search environment whose direct model completion raises. -/
def envDirectError : PipelineEnv :=
  { decideOutcome := .ok (false, "general knowledge suffices")
    searchOutcome := .ok []
    rankOutcome := .ok []
    fetchOutcome := fun _ => .ok ""
    answerOutcome := .ok ""
    evalOutcome := .error "unused"
    directOutcome := .error "rate limited"
    followUpOutcome := .ok [] }

/-- No-search environment whose direct model completion succeeds. -/
def envNoSearch : PipelineEnv :=
  { decideOutcome := .ok (false, "general knowledge suffices")
    searchOutcome := .ok []
    rankOutcome := .ok []
    fetchOutcome := fun _ => .ok ""
    answerOutcome := .ok ""
    evalOutcome := .error "unused"
    directOutcome := .ok "direct"
    followUpOutcome := .ok [] }

/-- Environment whose Search-Necessity Classifier call raises. -/
def envDecideError : PipelineEnv :=
  { decideOutcome := .error "connection reset"
    searchOutcome := .ok [{ title := "t", url := "http://u", snippet := "s" }]
    rankOutcome := .error "bad json"
    fetchOutcome := fun _ => .ok "page text"
    answerOutcome := .ok "an answer"
    evalOutcome := .error "bad json"
    directOutcome := .ok "direct"
    followUpOutcome := .ok [] }

/-- Concrete search results for the ranking witnesses. -/
def sampleResults : List SearchResult :=
  [{ title := "A", url := "http://a", snippet := "sa" },
   { title := "B", url := "http://b", snippet := "sb" },
   { title := "C", url := "http://c", snippet := "sc" }]

/-- A concrete parsed ranking response: one invalid index (`7`), one
negative index (`-1`), and two valid entries with equal scores. -/
def sampleRankings : List RankEntry :=
  [{ index := 7, score := 10, explanation := "out of range" },
   { index := 1, score := 6, explanation := "relevant" },
   { index := -1, score := 9, explanation := "negative" },
   { index := 0, score := 6, explanation := "also relevant" },
   { index := 2, score := 8, explanation := "most relevant" }]

/-- A cleaned page text of 15001 identical characters, exceeding the
15000-character truncation bound. -/
def longText : String := String.mk (List.replicate 15001 'a')

end Pipeline

namespace Pipeline

/-- Inserting with `insertDescBy` permutes: the result is the element
consed onto the list, up to permutation. -/
theorem insertDescBy_perm (key : α → Int) (x : α) (l : List α) :
    (insertDescBy key x l).Perm (x :: l) := by
  induction l with
  | nil => exact List.Perm.refl _
  | cons y ys ih =>
    rw [insertDescBy]
    split
    · exact ((ih.cons y).trans (List.Perm.swap x y ys))
    · exact List.Perm.refl _

/-- `sortDescBy` permutes its input. -/
theorem sortDescBy_perm (key : α → Int) (l : List α) :
    (sortDescBy key l).Perm l := by
  induction l with
  | nil => exact List.Perm.refl _
  | cons x xs ih => exact (insertDescBy_perm key x _).trans (ih.cons x)

/-- Membership in an `insertDescBy` result. -/
theorem mem_insertDescBy (key : α → Int) (x z : α) (l : List α)
    (hz : z ∈ insertDescBy key x l) : z = x ∨ z ∈ l := by
  have := (insertDescBy_perm key x l).mem_iff.mp hz
  simpa using this

/-- Inserting into a descending-sorted list keeps it descending-sorted. -/
theorem pairwise_insertDescBy (key : α → Int) (x : α) (l : List α)
    (hl : l.Pairwise (fun a b => key b ≤ key a)) :
    (insertDescBy key x l).Pairwise (fun a b => key b ≤ key a) := by
  induction l with
  | nil => simp [insertDescBy]
  | cons y ys ih =>
    rcases List.pairwise_cons.mp hl with ⟨hy, hys⟩
    rw [insertDescBy]
    split
    · rename_i hlt
      refine List.pairwise_cons.mpr ⟨?_, ih hys⟩
      intro z hz
      rcases mem_insertDescBy key x z ys hz with rfl | hz'
      · exact le_of_lt hlt
      · exact hy z hz'
    · rename_i hge
      push_neg at hge
      refine List.pairwise_cons.mpr ⟨?_, hl⟩
      intro z hz
      rcases List.mem_cons.mp hz with rfl | hz'
      · exact hge
      · exact le_trans (hy z hz') hge

/-- `sortDescBy` sorts non-increasing by key. -/
theorem pairwise_sortDescBy (key : α → Int) (l : List α) :
    (sortDescBy key l).Pairwise (fun a b => key b ≤ key a) := by
  induction l with
  | nil => simp [sortDescBy]
  | cons x xs ih => exact pairwise_insertDescBy key x _ ih

/-- Insertion of an element whose key is not `s` leaves the key-`s`
filter unchanged. -/
theorem filter_insertDescBy_ne (key : α → Int) (x : α) (l : List α) (s : Int)
    (hx : ¬ key x = s) :
    (insertDescBy key x l).filter (fun a => key a == s)
      = l.filter (fun a => key a == s) := by
  induction l with
  | nil => simp [insertDescBy, hx]
  | cons y ys ih =>
    rw [insertDescBy]
    split
    · rw [List.filter_cons, List.filter_cons, ih]
    · rw [List.filter_cons]
      simp [hx]

/-- Insertion of an element whose key is `s` prepends it to the key-`s`
filter: every element it passes over has a strictly larger key. -/
theorem filter_insertDescBy_eq (key : α → Int) (x : α) (l : List α) (s : Int)
    (hx : key x = s) :
    (insertDescBy key x l).filter (fun a => key a == s)
      = x :: l.filter (fun a => key a == s) := by
  induction l with
  | nil => simp [insertDescBy, hx]
  | cons y ys ih =>
    rw [insertDescBy]
    split
    · rename_i hlt
      have hy : ¬ key y = s := by omega
      rw [List.filter_cons, List.filter_cons]
      simp only [hy, beq_iff_eq, if_neg, decide_eq_true_eq]
      simpa [hy] using ih
    · rw [List.filter_cons]
      simp [hx]

/-- Stability of `sortDescBy`, stated as the filter characterisation:
for every key value `s`, the elements of key `s` appear in the sorted
output in exactly their input order. -/
theorem filter_sortDescBy (key : α → Int) (l : List α) (s : Int) :
    (sortDescBy key l).filter (fun a => key a == s)
      = l.filter (fun a => key a == s) := by
  induction l with
  | nil => rfl
  | cons x xs ih =>
    by_cases hx : key x = s
    · rw [sortDescBy, filter_insertDescBy_eq key x _ s hx, ih, List.filter_cons]
      simp [hx]
    · rw [sortDescBy, filter_insertDescBy_ne key x _ s hx, ih, List.filter_cons]
      simp [hx]

/-- Every element of `rankedPre` copies its `title`, `url` and `snippet`
from some input result. -/
theorem rankedPre_mem (results : List SearchResult) (rankings : List RankEntry)
    (r : RankedResult) (hr : r ∈ rankedPre results rankings) :
    ∃ s ∈ results, r.title = s.title ∧ r.url = s.url ∧ r.snippet = s.snippet := by
  unfold rankedPre at hr
  rw [List.mem_filterMap] at hr
  obtain ⟨rk, _, hmk⟩ := hr
  split at hmk
  · cases hg : results.get? rk.index.toNat with
    | none => rw [hg] at hmk; cases hmk
    | some sr =>
      rw [hg] at hmk
      cases hmk
      exact ⟨sr, List.get?_mem hg, rfl, rfl, rfl⟩
  · cases hmk

/-- Characterisation of the early-return path of `process_query`: search
requested, zero results. -/
theorem process_query_empty_results (env : PipelineEnv) (query : String)
    (m : Nat) (hd : (decide_if_search_needed env.decideOutcome).1 = true)
    (hs : search_web env.searchOutcome = []) :
    process_query env query m =
      { original_query := query
        search_performed := true
        answer := "I couldn't find any relevant information on the web for your query."
        follow_up_questions := []
        evaluation := none
        refined_answer := ""
        reasoning := ""
        search_decision_reasoning := (decide_if_search_needed env.decideOutcome).2
        initial_answer := none
        issues := none
        context := none } := by
  simp [process_query, hd, hs]

/-- Characterisation of the full search path of `process_query`: search
requested, at least one result. -/
theorem process_query_search_results (env : PipelineEnv) (query : String)
    (m : Nat) (hd : (decide_if_search_needed env.decideOutcome).1 = true)
    (hs : search_web env.searchOutcome ≠ []) :
    process_query env query m =
      { original_query := query
        search_performed := true
        answer := (evaluate_and_refine_answer (answer_with_context env.answerOutcome)
                    env.evalOutcome).refined_answer
        follow_up_questions := generate_follow_up_questions env.followUpOutcome
        evaluation := some (evaluate_and_refine_answer
                      (answer_with_context env.answerOutcome) env.evalOutcome).evaluation
        refined_answer := (evaluate_and_refine_answer
                      (answer_with_context env.answerOutcome) env.evalOutcome).refined_answer
        reasoning := ""
        search_decision_reasoning := (decide_if_search_needed env.decideOutcome).2
        initial_answer := some (answer_with_context env.answerOutcome)
        issues := some (evaluate_and_refine_answer
                      (answer_with_context env.answerOutcome) env.evalOutcome).issues
        context := some (get_context_from_results env.fetchOutcome
                      (rank_search_results (search_web env.searchOutcome) env.rankOutcome) m) } := by
  have hs' : (search_web env.searchOutcome).isEmpty = false := by
    cases h : search_web env.searchOutcome with
    | nil => exact absurd h hs
    | cons a l => rfl
  simp [process_query, hd, hs', addFollowUps]

/-- Characterisation of the no-search path when the direct completion
succeeds. -/
theorem process_query_nosearch_ok (env : PipelineEnv) (query : String)
    (m : Nat) (a : String)
    (hd : (decide_if_search_needed env.decideOutcome).1 = false)
    (ho : env.directOutcome = .ok a) :
    process_query env query m =
      { original_query := query
        search_performed := false
        answer := a
        follow_up_questions := generate_follow_up_questions env.followUpOutcome
        evaluation := none
        refined_answer := ""
        reasoning := ""
        search_decision_reasoning := (decide_if_search_needed env.decideOutcome).2
        initial_answer := some a
        issues := none
        context := none } := by
  simp [process_query, hd, ho, addFollowUps]

/-- Characterisation of the no-search path when the direct completion
raises. -/
theorem process_query_nosearch_err (env : PipelineEnv) (query : String)
    (m : Nat) (e : String)
    (hd : (decide_if_search_needed env.decideOutcome).1 = false)
    (he : env.directOutcome = .error e) :
    process_query env query m =
      { original_query := query
        search_performed := false
        answer := "Sorry, I encountered an error while generating your answer: " ++ e
        follow_up_questions := generate_follow_up_questions env.followUpOutcome
        evaluation := none
        refined_answer := ""
        reasoning := ""
        search_decision_reasoning := (decide_if_search_needed env.decideOutcome).2
        initial_answer := none
        issues := none
        context := none } := by
  simp [process_query, hd, he, addFollowUps]

/-- `search_performed` always records exactly the classifier's decision. -/
theorem search_performed_eq_decision (env : PipelineEnv) (query : String)
    (m : Nat) :
    (process_query env query m).search_performed
      = (decide_if_search_needed env.decideOutcome).1 := by
  cases hd : (decide_if_search_needed env.decideOutcome).1 with
  | false =>
    cases ho : env.directOutcome with
    | ok a => rw [process_query_nosearch_ok env query m a hd ho]
    | error e => rw [process_query_nosearch_err env query m e hd ho]
  | true =>
    by_cases hs : search_web env.searchOutcome = []
    · rw [process_query_empty_results env query m hd hs]
    · rw [process_query_search_results env query m hd hs]

/-- C1 (counterexample): with the classifier requesting a search, an
empty search-result list, and a Follow-up Generator that would succeed
with one question, `process_query` returns the fixed no-results answer
but an EMPTY `follow_up_questions` list — the early `return result`
(line 445) skips the follow-up generation step (line 497), so the field
is not populated by a call to the Follow-up Generator, contrary to the
claim. -/
theorem claim1_counterexample :
    (decide_if_search_needed envEmptySearch.decideOutcome).1 = true
    ∧ search_web envEmptySearch.searchOutcome = []
    ∧ generate_follow_up_questions envEmptySearch.followUpOutcome = [fuExample]
    ∧ (process_query envEmptySearch "latest news" 3).answer
        = "I couldn't find any relevant information on the web for your query."
    ∧ (process_query envEmptySearch "latest news" 3).follow_up_questions = []
    ∧ (process_query envEmptySearch "latest news" 3).follow_up_questions
        ≠ generate_follow_up_questions envEmptySearch.followUpOutcome := by
  refine ⟨rfl, rfl, ?_, ?_, ?_, ?_⟩ <;> decide

/-- C1 (amended): whenever the classifier decides search is needed and
the Web Search Client returns an empty result list, `process_query`
returns a result whose `answer` equals the fixed no-results string and
whose `follow_up_questions` is the empty list, the Follow-up Generator
not being invoked on this early-return path. -/
theorem claim1_empty_search_early_return (env : PipelineEnv)
    (query : String) (m : Nat)
    (hd : (decide_if_search_needed env.decideOutcome).1 = true)
    (hs : search_web env.searchOutcome = []) :
    (process_query env query m).answer
      = "I couldn't find any relevant information on the web for your query."
    ∧ (process_query env query m).follow_up_questions = [] := by
  rw [process_query_empty_results env query m hd hs]
  exact ⟨rfl, rfl⟩

/-- Witness for `claim1_empty_search_early_return` at a concrete
environment. -/
theorem claim1_witness :
    (decide_if_search_needed envEmptySearch.decideOutcome).1 = true
    ∧ search_web envEmptySearch.searchOutcome = []
    ∧ ((process_query envEmptySearch "latest news" 3).answer
        = "I couldn't find any relevant information on the web for your query."
      ∧ (process_query envEmptySearch "latest news" 3).follow_up_questions = []) :=
  ⟨rfl, rfl, claim1_empty_search_early_return envEmptySearch "latest news" 3 rfl rfl⟩

/-- C2 (counterexample): two failing inputs.  On the empty-search-results
path `search_performed` is `true` yet `answer` (the fixed no-results
string) differs from `refined_answer` (still the empty string).  On the
no-search path with a failing direct completion, `search_performed` is
`false`, `answer` is the apology string, and the `initial_answer` key was
never added, so `answer` does not equal `initial_answer`. -/
theorem claim2_counterexample :
    ((process_query envEmptySearch2 "q" 3).search_performed = true
      ∧ (process_query envEmptySearch2 "q" 3).answer
          ≠ (process_query envEmptySearch2 "q" 3).refined_answer)
    ∧ ((process_query envDirectError "q" 3).search_performed = false
      ∧ (process_query envDirectError "q" 3).initial_answer = none
      ∧ (process_query envDirectError "q" 3).answer
          = "Sorry, I encountered an error while generating your answer: rate limited") := by
  refine ⟨⟨?_, ?_⟩, ?_, ?_, ?_⟩ <;> decide

/-- C2 (amended): `answer` equals `refined_answer` when search was
performed and the search returned at least one result; when search was
not performed, `answer` equals the direct model answer and also equals
`initial_answer` whenever the direct completion succeeded, while on
direct-completion failure `answer` is the apology string embedding the
error and the `initial_answer` key is absent. -/
theorem claim2_answer_field (env : PipelineEnv) (query : String) (m : Nat) :
    ((process_query env query m).search_performed = true →
      search_web env.searchOutcome ≠ [] →
      (process_query env query m).answer = (process_query env query m).refined_answer)
    ∧ ((process_query env query m).search_performed = false →
      (∀ a, env.directOutcome = .ok a →
        (process_query env query m).answer = a
        ∧ (process_query env query m).initial_answer = some a)
      ∧ (∀ e, env.directOutcome = .error e →
        (process_query env query m).answer
          = "Sorry, I encountered an error while generating your answer: " ++ e
        ∧ (process_query env query m).initial_answer = none)) := by
  cases hd : (decide_if_search_needed env.decideOutcome).1 with
  | true =>
    constructor
    · intro _ hne
      rw [process_query_search_results env query m hd hne]
    · intro hfalse
      rw [search_performed_eq_decision env query m, hd] at hfalse
      cases hfalse
  | false =>
    constructor
    · intro htrue _
      rw [search_performed_eq_decision env query m, hd] at htrue
      cases htrue
    · intro _
      constructor
      · intro a ho
        rw [process_query_nosearch_ok env query m a hd ho]
        exact ⟨rfl, rfl⟩
      · intro e he
        rw [process_query_nosearch_err env query m e hd he]
        exact ⟨rfl, rfl⟩

/-- Witness for `claim2_answer_field` at a concrete no-search
environment with a successful direct completion. -/
theorem claim2_witness :
    (process_query envNoSearch "q" 3).search_performed = false
    ∧ envNoSearch.directOutcome = Except.ok "direct"
    ∧ (process_query envNoSearch "q" 3).answer = "direct"
    ∧ (process_query envNoSearch "q" 3).initial_answer = some "direct" :=
  ⟨by decide, rfl,
   ((claim2_answer_field envNoSearch "q" 3).2 (by decide)).1 "direct" rfl⟩

/-- C3: on any classifier failure `decide_if_search_needed` returns the
fail-open pair, and the Orchestrator's result reports that a search was
performed. -/
theorem claim3_classifier_fails_open (env : PipelineEnv) (query : String)
    (m : Nat) (e : String) (h : env.decideOutcome = .error e) :
    decide_if_search_needed env.decideOutcome
      = (true, "Error in decision process, defaulting to search")
    ∧ (process_query env query m).search_performed = true := by
  have hdec : decide_if_search_needed env.decideOutcome
      = (true, "Error in decision process, defaulting to search") := by
    rw [h]; rfl
  refine ⟨hdec, ?_⟩
  rw [search_performed_eq_decision env query m, hdec]

/-- Witness for `claim3_classifier_fails_open` at a concrete environment
whose classifier call raises. -/
theorem claim3_witness :
    envDecideError.decideOutcome = Except.error "connection reset"
    ∧ (decide_if_search_needed envDecideError.decideOutcome
        = (true, "Error in decision process, defaulting to search")
      ∧ (process_query envDecideError "q" 3).search_performed = true) :=
  ⟨rfl, claim3_classifier_fails_open envDecideError "q" 3 "connection reset" rfl⟩

/-- C6: on a non-empty input and a successfully parsed ranking response,
`rank_search_results` (i) returns only items whose title, url and snippet
are copied from some input item, (ii) is sorted non-increasing by
`relevance_score`, (iii) for every score value lists the items carrying
that score in exactly the order the ranking response assigned them
(`rankedPre` is that response order with invalid indices dropped), and
(iv) is a permutation of `rankedPre` — the subset of the input the
response's valid entries select. -/
theorem claim6_ranker_success (results : List SearchResult)
    (rankings : List RankEntry) (hne : results ≠ []) :
    (∀ r ∈ rank_search_results results (.ok rankings),
      ∃ s ∈ results, r.title = s.title ∧ r.url = s.url ∧ r.snippet = s.snippet)
    ∧ (rank_search_results results (.ok rankings)).Pairwise
        (fun a b => b.relevance_score ≤ a.relevance_score)
    ∧ (∀ s : Int,
        (rank_search_results results (.ok rankings)).filter
            (fun r => r.relevance_score == s)
          = (rankedPre results rankings).filter (fun r => r.relevance_score == s))
    ∧ (rank_search_results results (.ok rankings)).Perm
        (rankedPre results rankings) := by
  have hni : results.isEmpty = false := by
    cases results with
    | nil => exact absurd rfl hne
    | cons a l => rfl
  have hout : rank_search_results results (.ok rankings)
      = sortDescBy (fun r => r.relevance_score) (rankedPre results rankings) := by
    simp [rank_search_results, hni]
  refine ⟨?_, ?_, ?_, ?_⟩
  · intro r hr
    rw [hout] at hr
    exact rankedPre_mem results rankings r
      ((sortDescBy_perm (fun r => r.relevance_score) _).mem_iff.mp hr)
  · rw [hout]
    exact pairwise_sortDescBy _ _
  · intro s
    rw [hout]
    exact filter_sortDescBy _ _ s
  · rw [hout]
    exact sortDescBy_perm _ _

/-- Witness for `claim6_ranker_success` at a concrete input with an
out-of-range index, a negative index and a score tie. -/
theorem claim6_witness :
    sampleResults ≠ []
    ∧ ((∀ r ∈ rank_search_results sampleResults (.ok sampleRankings),
        ∃ s ∈ sampleResults, r.title = s.title ∧ r.url = s.url ∧ r.snippet = s.snippet)
      ∧ (rank_search_results sampleResults (.ok sampleRankings)).Pairwise
          (fun a b => b.relevance_score ≤ a.relevance_score)
      ∧ (∀ s : Int,
          (rank_search_results sampleResults (.ok sampleRankings)).filter
              (fun r => r.relevance_score == s)
            = (rankedPre sampleResults sampleRankings).filter
                (fun r => r.relevance_score == s))
      ∧ (rank_search_results sampleResults (.ok sampleRankings)).Perm
          (rankedPre sampleResults sampleRankings)) :=
  ⟨by decide, claim6_ranker_success sampleResults sampleRankings (by decide)⟩

/-- C7: on a non-empty input, a failed ranking completion yields exactly
one output per input item, in the original input order, each identical to
its input extended with score 5 and explanation `"Ranking failed"`. -/
theorem claim7_ranker_failure (results : List SearchResult) (e : String)
    (hne : results ≠ []) :
    (rank_search_results results (.error e)).length = results.length
    ∧ (∀ i : Nat, (rank_search_results results (.error e))[i]?
        = (results[i]?).map fun r =>
            { title := r.title, url := r.url, snippet := r.snippet,
              relevance_score := 5, explanation := "Ranking failed" }) := by
  have hni : results.isEmpty = false := by
    cases results with
    | nil => exact absurd rfl hne
    | cons a l => rfl
  have hout : rank_search_results results (.error e)
      = results.map fun r =>
          { title := r.title, url := r.url, snippet := r.snippet,
            relevance_score := 5, explanation := "Ranking failed" } := by
    simp [rank_search_results, hni]
  constructor
  · rw [hout, List.length_map]
  · intro i
    rw [hout, List.getElem?_map]

/-- Witness for `claim7_ranker_failure` at a concrete input. -/
theorem claim7_witness :
    sampleResults ≠ []
    ∧ ((rank_search_results sampleResults (.error "bad json")).length
        = sampleResults.length
      ∧ (∀ i : Nat, (rank_search_results sampleResults (.error "bad json"))[i]?
          = (sampleResults[i]?).map fun r =>
              { title := r.title, url := r.url, snippet := r.snippet,
                relevance_score := 5, explanation := "Ranking failed" })) :=
  ⟨by decide, claim7_ranker_failure sampleResults "bad json" (by decide)⟩

/-- C8: on any critic failure, `evaluate_and_refine_answer` returns all
five evaluation scores equal to 5, the single issue
`"Error in evaluation process"`, and the original draft answer unchanged
as `refined_answer`. -/
theorem claim8_critic_failure (answer e : String) :
    (evaluate_and_refine_answer answer (.error e)).evaluation.accuracy = 5
    ∧ (evaluate_and_refine_answer answer (.error e)).evaluation.completeness = 5
    ∧ (evaluate_and_refine_answer answer (.error e)).evaluation.clarity = 5
    ∧ (evaluate_and_refine_answer answer (.error e)).evaluation.conciseness = 5
    ∧ (evaluate_and_refine_answer answer (.error e)).evaluation.evidence = 5
    ∧ (evaluate_and_refine_answer answer (.error e)).issues
        = ["Error in evaluation process"]
    ∧ (evaluate_and_refine_answer answer (.error e)).refined_answer = answer :=
  ⟨rfl, rfl, rfl, rfl, rfl, rfl, rfl⟩

/-- `String.take` takes at most `n` characters. -/
theorem string_length_take (s : String) (n : Nat) :
    (s.take n).length = min n s.length := by
  show (s.take n).data.length = min n s.data.length
  rw [String.data_take, List.length_take]

/-- C9: when the fetched and cleaned text exceeds 15000 characters,
`scrape_webpage` truncates it at 15000 characters and appends the
truncation marker; its successful output is always bounded by 15000
characters of source content plus the marker, so each per-source section
of the context blob embeds at most that much scraped content. -/
theorem claim9_truncation (url text : String) (hlong : text.length > 15000) :
    scrape_webpage url (.ok text) = text.take 15000 ++ truncationMarker
    ∧ (scrape_webpage url (.ok text)).length = 15000 + truncationMarker.length
    ∧ (∀ t : String, (scrape_webpage url (.ok t)).length
        ≤ 15000 + truncationMarker.length) := by
  have hmain : truncateContent text = text.take 15000 ++ truncationMarker := by
    unfold truncateContent
    rw [if_pos hlong]
  have htake : (text.take 15000).length = 15000 := by
    rw [string_length_take]
    omega
  refine ⟨hmain, ?_, ?_⟩
  · show (truncateContent text).length = _
    rw [hmain, String.length_append, htake]
  · intro t
    show (truncateContent t).length ≤ _
    unfold truncateContent
    split
    · rename_i h
      rw [String.length_append, string_length_take]
      omega
    · rename_i h
      push_neg at h
      omega

/-- The concrete long text has exactly 15001 characters. -/
theorem longText_length : longText.length = 15001 := by
  show (List.replicate 15001 'a').length = 15001
  exact List.length_replicate 15001 'a'

/-- Witness for `claim9_truncation` at a concrete 15001-character text. -/
theorem claim9_witness :
    longText.length > 15000
    ∧ (scrape_webpage "http://a" (.ok longText)
        = longText.take 15000 ++ truncationMarker
      ∧ (scrape_webpage "http://a" (.ok longText)).length
          = 15000 + truncationMarker.length
      ∧ (∀ t : String, (scrape_webpage "http://a" (.ok t)).length
          ≤ 15000 + truncationMarker.length)) :=
  ⟨by rw [longText_length]; omega, claim9_truncation "http://a" longText
    (by rw [longText_length]; omega)⟩

end Pipeline

namespace MCPTest

/-- C4: when the first completion response requests exactly one tool
call resolving to registered tool `X` and the second response requests no
tools, `call_claude_with_tools` issues exactly one HTTP POST — to `X`'s
endpoint — makes exactly two completion calls, terminates, and returns
the second response's content. -/
theorem claim4_single_tool_round (registry manifest : List MCPTool)
    (service : Nat → Message) (tc : ToolCall) (X : MCPTool) (fuel : Nat)
    (hfind : registry.find? (fun t => t.name == tc.name) = some X)
    (h0 : (service 0).tool_use = [tc])
    (h1 : (service 1).tool_use = [])
    (hfuel : 1 ≤ fuel) :
    call_claude_with_tools registry manifest service fuel
      = .returned (service 1).content [execTool X tc] 2 := by
  obtain ⟨f, rfl⟩ : ∃ f, fuel = f + 1 := ⟨fuel - 1, by omega⟩
  rw [call_claude_with_tools, toolLoop.eq_def, h0]
  simp only [List.isEmpty_cons, Bool.false_eq_true, if_false,
    processToolCalls, hfind]
  rw [toolLoop.eq_def, h1]
  simp

/-- Witness for `claim4_single_tool_round`: the `file_system` tool
requested once by a concrete service. -/
theorem claim4_witness :
    tools.find? (fun t => t.name == fsCall.name) = some file_system_tool
    ∧ (fsService 0).tool_use = [fsCall]
    ∧ (fsService 1).tool_use = []
    ∧ 1 ≤ 2
    ∧ call_claude_with_tools tools [file_system_tool] fsService 2
        = .returned (fsService 1).content [execTool file_system_tool fsCall] 2 :=
  ⟨by decide, rfl, rfl, by decide,
    claim4_single_tool_round tools [file_system_tool] fsService fsCall
      file_system_tool 2 (by decide) rfl rfl (by decide)⟩

/-- C5 (code evidence): requesting the unregistered tool name
`"web_search"` makes `call_claude_with_tools` end in
`uncaughtLookupError` — the model of the unguarded
`next(t for t in tools if …)` raising `StopIteration` with no handler
anywhere in the function — rather than in any reported/returned error:
the lookup failure crashes the call. -/
theorem claim5_unregistered_tool_crash :
    tools.find? (fun t => t.name == "web_search") = none
    ∧ call_claude_with_tools tools tools unknownToolService 5
        = .uncaughtLookupError "web_search" [] 1 := by
  constructor <;> decide

/-- C10: with the full global registry and the strict sub-manifest
`[file_system_tool]` (which does not contain the `database` tool), a
completion response naming `"database"` still causes an HTTP POST to the
database tool's endpoint `http://localhost:8081/query`: requested tool
names are resolved against the process-wide registry, not the
`tools_to_use` manifest. -/
theorem claim10_global_registry_lookup :
    database_tool ∈ tools
    ∧ (∀ t ∈ [file_system_tool], t ∈ tools)
    ∧ [file_system_tool] ≠ tools
    ∧ (∀ t ∈ [file_system_tool], t.name ≠ "database")
    ∧ call_claude_with_tools tools [file_system_tool] dbService 5
        = .returned "The query returned 1."
            [{ url := "http://localhost:8081/query", method := "run_query",
               params := "SELECT 1" }] 2 := by
  refine ⟨?_, ?_, ?_, ?_, ?_⟩ <;> decide

end MCPTest
